import Mathlib

/- Shallow embedding of the glium-101 repository (src/main.rs).

   The program opens a window and runs a winit/glutin event loop whose closure,
   once per delivered event ("tick"), recompiles the shader pair, begins a
   frame, clears it to white, rebuilds the three triangle vertices, generates
   and issues two draw calls (a fill pass and a stroke pass), presents the
   frame, and finally sets the loop's control flow.

   Modelling choices:
   - `f32` is modelled by `Rat`.  Every floating-point value in the program is
     a literal (±0.5, ±0.25, 0.0, 1.0, 4.0) that is only constructed, copied
     and compared, never subjected to floating-point arithmetic, so exact
     rationals are a faithful carrier.
   - `std::time::Instant` is modelled by `Nat` nanoseconds since an arbitrary
     epoch; `Duration::from_nanos` is the identity on the nanosecond count.
   - The OpenGL side effects of a tick are recorded as an explicit trace of
     `Step`s in execution order; the GPU/driver objects themselves
     (`glium::Display`, compiled programs, frames) are opaque collaborators,
     so only the data the program hands them is recorded.
   - Each fallible GL operation of a tick (`Program::from_source`,
     `VertexBuffer::new` for each of the two commands, each `frame.draw`,
     `frame.finish`) is given a success flag in `GlEnv`; the source calls
     `.unwrap()` on every one of them, which is modelled by `run_tick`
     returning `Except.error` (the panic) as soon as a flagged operation
     fails.
   - `glutin`'s event enums are external to the repository; they are embedded
     with the constructors the program matches on plus representative stand-ins
     for the wildcard arms. -/

namespace Glium101

/-- Model of Rust `f32` (see header: all f32 values here are exact literals). -/
abbrev f32 := Rat

/-- Model of `std::time::Instant`: nanoseconds since an arbitrary epoch. -/
abbrev Instant := Nat

/-- Model of `std::time::Duration::from_nanos`. -/
def duration_from_nanos (nanos : Nat) : Nat := nanos

/-- `struct Vertex { position: [f32; 2] }` (the 2-element array as a pair). -/
structure Vertex where
  position : f32 × f32
deriving DecidableEq, Repr

/-- `VERTEX_SHADER_SRC` of src/main.rs, verbatim. -/
def VERTEX_SHADER_SRC : String :=
  "\n#version 140\n\nin vec2 position;\n\nvoid main() \x7b\n    vec2 pos = position;\n    gl_Position = vec4(pos, 0.0, 1.0);\n\x7d\n"

/-- `FRAGMENT_SHADER_SRC` of src/main.rs, verbatim. -/
def FRAGMENT_SHADER_SRC : String :=
  "\n#version 140\n\nout vec4 color;\nuniform vec4 requested_rgba_color;\n\nvoid main() \x7b\n    color = requested_rgba_color;\n\x7d\n"

/-- `struct Color { r, g, b, a: f32 }`. -/
structure Color where
  r : f32
  g : f32
  b : f32
  a : f32
deriving DecidableEq, Repr

/-- `Color::new`. -/
def Color.new (r : f32) (g : f32) (b : f32) (a : f32) : Color :=
  { r := r, g := g, b := b, a := a }

/-- `Color::as_tuple`. -/
def Color.as_tuple (self : Color) : f32 × f32 × f32 × f32 :=
  (self.r, self.g, self.b, self.a)

/-- `enum ShapePrimitive { Circle, Triangle }`. -/
inductive ShapePrimitive where
  | Circle
  | Triangle
deriving DecidableEq, Repr

/-- The two `glium::index::PrimitiveType` variants the program uses. -/
inductive PrimitiveType where
  | LineLoop
  | TrianglesList
deriving DecidableEq, Repr

/-- The two `glium::PolygonMode` variants the program uses. -/
inductive PolygonMode where
  | Fill
  | Line
deriving DecidableEq, Repr

/-- `glium::index::NoIndices(primitive_type)`. -/
structure NoIndices where
  primitive : PrimitiveType
deriving DecidableEq, Repr

/-- The `uniform!` storage: the single `requested_rgba_color` uniform. -/
structure UniformsStorage where
  requested_rgba_color : f32 × f32 × f32 × f32
deriving DecidableEq, Repr

/-- The fields of `glium::DrawParameters` the program sets (the rest stay at
    their defaults and are never read back by the program). -/
structure DrawParameters where
  multisampling : Bool
  polygon_mode : PolygonMode
  line_width : Option f32
deriving DecidableEq, Repr

/-- `struct SketchDrawCommand`.  The GPU-side `VertexBuffer` is represented by
    the vertex data uploaded into it. -/
structure SketchDrawCommand where
  vertex_buffer : List Vertex
  indices : NoIndices
  uniforms : UniformsStorage
  draw_parameters : DrawParameters
deriving DecidableEq, Repr

/-- The panics the tick can die with: one per `.unwrap()` call site kind. -/
inductive GlPanic where
  | programFromSourceFailed
  | vertexBufferNewFailed
  | drawFailed
  | finishFailed
deriving DecidableEq, Repr

/-- `generate_draw_command` of src/main.rs.  The `display` argument is opaque;
    what the program observes of it is whether `VertexBuffer::new` succeeds,
    which is the `vertex_buffer_new_ok` flag.  `Except.error` models the
    panic of the `.unwrap()` on `VertexBuffer::new`. -/
def generate_draw_command (vertex_buffer_new_ok : Bool) (vertices : List Vertex)
    (primitive : ShapePrimitive) (color : Color) (add_fill : Bool)
    (stroke_width : Option f32) : Except GlPanic SketchDrawCommand :=
  let rgba_color := color.as_tuple
  if vertex_buffer_new_ok = false then Except.error GlPanic.vertexBufferNewFailed else
  let vertex_buffer := vertices
  let primitive_type :=
    match primitive with
    | ShapePrimitive.Circle => PrimitiveType.LineLoop
    | ShapePrimitive.Triangle => PrimitiveType.TrianglesList
  let indices := NoIndices.mk primitive_type
  let uniforms := UniformsStorage.mk rgba_color
  let draw_parameters : DrawParameters :=
    { multisampling := true,
      polygon_mode :=
        match add_fill with
        | true => PolygonMode.Fill
        | false => PolygonMode.Line,
      line_width := stroke_width }
  Except.ok
    { vertex_buffer := vertex_buffer, indices := indices, uniforms := uniforms,
      draw_parameters := draw_parameters }

/-- The `glutin::event::WindowEvent` variants relevant to the program: it
    matches `CloseRequested` and wildcards everything else, so the remaining
    variants are represented by stand-ins. -/
inductive GlutinWindowEvent where
  | CloseRequested
  | Resized (w : Nat) (h : Nat)
  | Moved (x : Int) (y : Int)
  | Focused (focused : Bool)
  | OtherWindowEvent
deriving DecidableEq, Repr

/-- `glutin::event::StartCause`. -/
inductive GlutinStartCause where
  | ResumeTimeReached (start : Instant) (requested_resume : Instant)
  | WaitCancelled (start : Instant) (requested_resume : Option Instant)
  | Poll
  | Init
deriving DecidableEq, Repr

/-- `glutin::event::Event` (window ids as naturals, payloads the program never
    inspects reduced to tags). -/
inductive GlutinEvent where
  | WindowEvent (window_id : Nat) (event : GlutinWindowEvent)
  | NewEvents (cause : GlutinStartCause)
  | DeviceEvent
  | UserEvent
  | Suspended
  | Resumed
  | MainEventsCleared
  | RedrawRequested (window_id : Nat)
  | RedrawEventsCleared
  | LoopDestroyed
deriving DecidableEq, Repr

/-- Whether an event is `Event::WindowEvent { event: WindowEvent::CloseRequested, .. }`,
    the one pattern on which the closure sets `ControlFlow::Exit`. -/
def GlutinEvent.is_close_requested : GlutinEvent → Bool
  | GlutinEvent.WindowEvent _ GlutinWindowEvent.CloseRequested => true
  | _ => false

/-- `glutin::event_loop::ControlFlow`. -/
inductive ControlFlow where
  | Poll
  | Wait
  | WaitUntil (t : Instant)
  | Exit
deriving DecidableEq, Repr

/-- One observable step of a tick, in execution order. -/
inductive Step where
  | CompileProgram (vertex_src : String) (fragment_src : String) (geometry_src : Option String)
  | BeginFrame
  | ClearColor (r : f32) (g : f32) (b : f32) (a : f32)
  | BuildVertices (vertices : List Vertex)
  | UploadVertexBuffer (vertices : List Vertex)
  | DrawCall (cmd : SketchDrawCommand)
  | FinishFrame
  | SetControlFlow (cf : ControlFlow)
deriving DecidableEq, Repr

/-- The environment a single tick runs in: the wall clock at the
    `Instant::now()` call and the success of each fallible GL operation,
    in the order the tick performs them. -/
structure GlEnv where
  now : Instant
  program_from_source_ok : Bool
  vertex_buffer_new_fill_ok : Bool
  draw_fill_ok : Bool
  vertex_buffer_new_stroke_ok : Bool
  draw_stroke_ok : Bool
  finish_ok : Bool
deriving DecidableEq, Repr

/-- All fallible GL operations of the tick succeed. -/
def gl_all_ok (env : GlEnv) : Bool :=
  env.program_from_source_ok && env.vertex_buffer_new_fill_ok && env.draw_fill_ok &&
    env.vertex_buffer_new_stroke_ok && env.draw_stroke_ok && env.finish_ok

/-- Result of a tick that did not panic: its step trace and the final value
    of `*control_flow`. -/
structure TickResult where
  trace : List Step
  control_flow : ControlFlow
deriving DecidableEq, Repr

/-- One invocation of the event-loop closure of src/main.rs `main`
    (lines 122-241), in statement order.  `control_flow` is the incoming
    `*control_flow` value, which the closure never reads (it only writes it);
    `Except.error` models a panic from one of the `.unwrap()` calls. -/
def run_tick (env : GlEnv) (event : GlutinEvent) (control_flow : ControlFlow) :
    Except GlPanic TickResult :=
  let geometry_shader : Option String := none
  if env.program_from_source_ok = false then Except.error GlPanic.programFromSourceFailed else
  let t1 : List Step := [Step.CompileProgram VERTEX_SHADER_SRC FRAGMENT_SHADER_SRC geometry_shader]
  let t2 := t1 ++ [Step.BeginFrame]
  let t3 := t2 ++ [Step.ClearColor 1.0 1.0 1.0 1.0]
  let vertices : List Vertex :=
    [{ position := (-0.5, -0.5) }, { position := (0.0, 0.5) }, { position := (0.5, -0.25) }]
  let t4 := t3 ++ [Step.BuildVertices vertices]
  let add_fill := true
  let stroke_width : Option f32 := none
  let triangle_color := Color.new 1.0 0.0 0.0 0.0
  match generate_draw_command env.vertex_buffer_new_fill_ok vertices ShapePrimitive.Triangle
      triangle_color add_fill stroke_width with
  | Except.error p => Except.error p
  | Except.ok triangle_draw_command =>
    let t5 := t4 ++ [Step.UploadVertexBuffer triangle_draw_command.vertex_buffer]
    if env.draw_fill_ok = false then Except.error GlPanic.drawFailed else
    let t6 := t5 ++ [Step.DrawCall triangle_draw_command]
    let add_fill := false
    let stroke_width : Option f32 := some 4.0
    let triangle_color := Color.new 1.0 1.0 0.0 0.0
    match generate_draw_command env.vertex_buffer_new_stroke_ok vertices ShapePrimitive.Triangle
        triangle_color add_fill stroke_width with
    | Except.error p => Except.error p
    | Except.ok triangle_draw_command2 =>
      let t7 := t6 ++ [Step.UploadVertexBuffer triangle_draw_command2.vertex_buffer]
      if env.draw_stroke_ok = false then Except.error GlPanic.drawFailed else
      let t8 := t7 ++ [Step.DrawCall triangle_draw_command2]
      if env.finish_ok = false then Except.error GlPanic.finishFailed else
      let t9 := t8 ++ [Step.FinishFrame]
      let next_frame_time := env.now + duration_from_nanos 16666667
      let cf1 := ControlFlow.WaitUntil next_frame_time
      let t10 := t9 ++ [Step.SetControlFlow cf1]
      match event with
      | GlutinEvent.WindowEvent _ we =>
        match we with
        | GlutinWindowEvent.CloseRequested =>
          Except.ok { trace := t10 ++ [Step.SetControlFlow ControlFlow.Exit],
                      control_flow := ControlFlow.Exit }
        | _ => Except.ok { trace := t10, control_flow := cf1 }
      | GlutinEvent.NewEvents cause =>
        match cause with
        | GlutinStartCause.ResumeTimeReached _ _ =>
          Except.ok { trace := t10, control_flow := cf1 }
        | GlutinStartCause.Init => Except.ok { trace := t10, control_flow := cf1 }
        | _ => Except.ok { trace := t10, control_flow := cf1 }
      | _ => Except.ok { trace := t10, control_flow := cf1 }

/-- The vertex list built each tick (lines 161-171 of src/main.rs). -/
def triangle_vertices : List Vertex :=
  [{ position := (-0.5, -0.5) }, { position := (0.0, 0.5) }, { position := (0.5, -0.25) }]

/-- The draw command of the fill pass (`add_fill = true`, no stroke width,
    color (1.0, 0.0, 0.0, 0.0)). -/
def fill_command : SketchDrawCommand :=
  { vertex_buffer := triangle_vertices,
    indices := NoIndices.mk PrimitiveType.TrianglesList,
    uniforms := UniformsStorage.mk (1.0, 0.0, 0.0, 0.0),
    draw_parameters :=
      { multisampling := true, polygon_mode := PolygonMode.Fill, line_width := none } }

/-- The draw command of the stroke pass (`add_fill = false`,
    `stroke_width = Some(4.0)`, color (1.0, 1.0, 0.0, 0.0)). -/
def stroke_command : SketchDrawCommand :=
  { vertex_buffer := triangle_vertices,
    indices := NoIndices.mk PrimitiveType.TrianglesList,
    uniforms := UniformsStorage.mk (1.0, 1.0, 0.0, 0.0),
    draw_parameters :=
      { multisampling := true, polygon_mode := PolygonMode.Line, line_width := some 4.0 } }

/-- The exact step trace of a tick none of whose GL operations fails, as a
    function of the clock reading and of whether the tick's event was a
    window-close request. -/
def expected_trace (now : Instant) (close : Bool) : List Step :=
  [Step.CompileProgram VERTEX_SHADER_SRC FRAGMENT_SHADER_SRC none,
   Step.BeginFrame,
   Step.ClearColor 1.0 1.0 1.0 1.0,
   Step.BuildVertices triangle_vertices,
   Step.UploadVertexBuffer triangle_vertices,
   Step.DrawCall fill_command,
   Step.UploadVertexBuffer triangle_vertices,
   Step.DrawCall stroke_command,
   Step.FinishFrame,
   Step.SetControlFlow (ControlFlow.WaitUntil (now + 16666667))]
  ++ (if close then [Step.SetControlFlow ControlFlow.Exit] else [])

/-- The full result of a tick none of whose GL operations fails. -/
def expected_result (now : Instant) (close : Bool) : TickResult :=
  { trace := expected_trace now close,
    control_flow :=
      if close then ControlFlow.Exit else ControlFlow.WaitUntil (now + 16666667) }

/-- The vertex lists of the `BuildVertices` steps of a trace, in order. -/
def built_vertex_lists : List Step → List (List Vertex)
  | [] => []
  | Step.BuildVertices vs :: rest => vs :: built_vertex_lists rest
  | _ :: rest => built_vertex_lists rest

/-- The vertex lists of the `UploadVertexBuffer` steps of a trace, in order. -/
def uploaded_vertex_lists : List Step → List (List Vertex)
  | [] => []
  | Step.UploadVertexBuffer vs :: rest => vs :: uploaded_vertex_lists rest
  | _ :: rest => uploaded_vertex_lists rest

/-- The draw commands of the `DrawCall` steps of a trace, in order. -/
def draw_commands : List Step → List SketchDrawCommand
  | [] => []
  | Step.DrawCall cmd :: rest => cmd :: draw_commands rest
  | _ :: rest => draw_commands rest

/-- The shader-source triples of the `CompileProgram` steps of a trace. -/
def compiled_programs : List Step → List (String × String × Option String)
  | [] => []
  | Step.CompileProgram v f g :: rest => (v, f, g) :: compiled_programs rest
  | _ :: rest => compiled_programs rest

/-- The control-flow values written by the `SetControlFlow` steps of a trace. -/
def set_control_flows : List Step → List ControlFlow
  | [] => []
  | Step.SetControlFlow cf :: rest => cf :: set_control_flows rest
  | _ :: rest => set_control_flows rest

/-- The rgba values of the `ClearColor` steps of a trace, in order. -/
def clear_colors : List Step → List (f32 × f32 × f32 × f32)
  | [] => []
  | Step.ClearColor r g b a :: rest => (r, g, b, a) :: clear_colors rest
  | _ :: rest => clear_colors rest

/-- The first `ClearColor` of the trace comes before any `DrawCall` and is
    opaque white (1.0, 1.0, 1.0, 1.0). -/
def clears_white_before_draws : List Step → Bool
  | [] => false
  | Step.ClearColor r g b a :: _ =>
    decide ((r, g, b, a) = ((1.0 : f32), (1.0 : f32), (1.0 : f32), (1.0 : f32)))
  | Step.DrawCall _ :: _ => false
  | Step.CompileProgram _ _ _ :: rest => clears_white_before_draws rest
  | Step.BeginFrame :: rest => clears_white_before_draws rest
  | Step.BuildVertices _ :: rest => clears_white_before_draws rest
  | Step.UploadVertexBuffer _ :: rest => clears_white_before_draws rest
  | Step.FinishFrame :: rest => clears_white_before_draws rest
  | Step.SetControlFlow _ :: rest => clears_white_before_draws rest

/-- Phase 4 of the tick order asserted by claim C6: only `SetControlFlow`
    steps up to the end of the trace. -/
def chk_cf_phase : List Step → Bool
  | [] => true
  | Step.SetControlFlow _ :: rest => chk_cf_phase rest
  | _ => false

/-- Phase 3 of the tick order asserted by claim C6: `DrawCall` steps, then a
    `FinishFrame`, then the control-flow phase. -/
def chk_draw_phase : List Step → Bool
  | Step.DrawCall _ :: rest => chk_draw_phase rest
  | Step.FinishFrame :: rest => chk_cf_phase rest
  | _ => false

/-- Phase 2 of the tick order asserted by claim C6: vertex build/upload steps,
    then the draw phase.  Build/upload and draw steps have disjoint
    constructors, so this greedy split is the only possible one. -/
def chk_upload_phase : List Step → Bool
  | Step.BuildVertices _ :: rest => chk_upload_phase rest
  | Step.UploadVertexBuffer _ :: rest => chk_upload_phase rest
  | rest => chk_draw_phase rest

/-- The tick order asserted by claim C6, as a trace-shape checker: compile the
    shader program, then begin the frame and clear it, then build and upload
    vertex data, then issue the draw calls, then present the frame, then set
    the next-frame control flow. -/
def claimed_tick_order : List Step → Bool
  | Step.CompileProgram _ _ _ :: Step.BeginFrame :: Step.ClearColor _ _ _ _ :: rest =>
    chk_upload_phase rest
  | _ => false

/-- The `primitive_type` match of `generate_draw_command` (how OpenGL is told
    to link the vertices together), as a named function for use in
    statements. -/
def primitive_type_for : ShapePrimitive → PrimitiveType
  | ShapePrimitive.Circle => PrimitiveType.LineLoop
  | ShapePrimitive.Triangle => PrimitiveType.TrianglesList

/-- A tick environment whose clock reads 0 and whose GL operations all
    succeed. -/
def env₀ : GlEnv :=
  { now := 0, program_from_source_ok := true, vertex_buffer_new_fill_ok := true,
    draw_fill_ok := true, vertex_buffer_new_stroke_ok := true, draw_stroke_ok := true,
    finish_ok := true }

/-- A second all-succeeding tick environment with a different clock reading. -/
def env₁ : GlEnv :=
  { now := 42, program_from_source_ok := true, vertex_buffer_new_fill_ok := true,
    draw_fill_ok := true, vertex_buffer_new_stroke_ok := true, draw_stroke_ok := true,
    finish_ok := true }

/-- The event-loop initialization event. -/
def evInit : GlutinEvent := GlutinEvent.NewEvents GlutinStartCause.Init

/-- A window-close request event. -/
def evClose : GlutinEvent := GlutinEvent.WindowEvent 0 GlutinWindowEvent.CloseRequested

theorem run_tick_ok (env : GlEnv) (e : GlutinEvent) (cf : ControlFlow)
    (h : gl_all_ok env = true) :
    run_tick env e cf = Except.ok (expected_result env.now e.is_close_requested) := by
  obtain ⟨now, p, vf, df, vs, ds, fo⟩ := env
  simp only [gl_all_ok, Bool.and_eq_true] at h
  obtain ⟨⟨⟨⟨⟨hp, hvf⟩, hdf⟩, hvs⟩, hds⟩, hfo⟩ := h
  subst hp hvf hdf hvs hds hfo
  cases e with
  | WindowEvent wid we => cases we <;> rfl
  | NewEvents cause => cases cause <;> rfl
  | DeviceEvent => rfl
  | UserEvent => rfl
  | Suspended => rfl
  | Resumed => rfl
  | MainEventsCleared => rfl
  | RedrawRequested wid => rfl
  | RedrawEventsCleared => rfl
  | LoopDestroyed => rfl

theorem run_tick_err (env : GlEnv) (e : GlutinEvent) (cf : ControlFlow)
    (h : gl_all_ok env = false) :
    ∃ p, run_tick env e cf = Except.error p := by
  obtain ⟨now, p, vf, df, vs, ds, fo⟩ := env
  cases p with
  | false => exact ⟨GlPanic.programFromSourceFailed, rfl⟩
  | true =>
    cases vf with
    | false => exact ⟨GlPanic.vertexBufferNewFailed, rfl⟩
    | true =>
      cases df with
      | false => exact ⟨GlPanic.drawFailed, rfl⟩
      | true =>
        cases vs with
        | false => exact ⟨GlPanic.vertexBufferNewFailed, rfl⟩
        | true =>
          cases ds with
          | false => exact ⟨GlPanic.drawFailed, rfl⟩
          | true =>
            cases fo with
            | false => exact ⟨GlPanic.finishFailed, rfl⟩
            | true => simp [gl_all_ok] at h

theorem built_expected (now : Instant) (close : Bool) :
    built_vertex_lists (expected_result now close).trace = [triangle_vertices] := by
  cases close <;> rfl

theorem uploaded_expected (now : Instant) (close : Bool) :
    uploaded_vertex_lists (expected_result now close).trace =
      [triangle_vertices, triangle_vertices] := by
  cases close <;> rfl

theorem compiled_expected (now : Instant) (close : Bool) :
    compiled_programs (expected_result now close).trace =
      [(VERTEX_SHADER_SRC, FRAGMENT_SHADER_SRC, (none : Option String))] := by
  cases close <;> rfl

theorem run_tick_ok_elim {env : GlEnv} {e : GlutinEvent} {cf : ControlFlow} {r : TickResult}
    (h : run_tick env e cf = Except.ok r) :
    gl_all_ok env = true ∧ r = expected_result env.now e.is_close_requested := by
  cases hg : gl_all_ok env with
  | false =>
    obtain ⟨p, hp⟩ := run_tick_err env e cf hg
    rw [hp] at h
    exact absurd h (by simp)
  | true =>
    have hok := run_tick_ok env e cf hg
    rw [hok] at h
    exact ⟨rfl, (Except.ok.inj h).symm⟩

/-- Claim C1: every tick that completes builds exactly one vertex list, namely
    the three vertices with positions (-0.5, -0.5), (0.0, 0.5), (0.5, -0.25),
    and every vertex list uploaded that tick is exactly that list (it is
    uploaded once per draw command, twice in total); no other length or
    contents ever occurs. -/
theorem spec_c1 (env : GlEnv) (e : GlutinEvent) (cf : ControlFlow) (r : TickResult)
    (h : run_tick env e cf = Except.ok r) :
    built_vertex_lists r.trace =
      [[{ position := (-0.5, -0.5) }, { position := (0.0, 0.5) }, { position := (0.5, -0.25) }]] ∧
    uploaded_vertex_lists r.trace =
      [[{ position := (-0.5, -0.5) }, { position := (0.0, 0.5) }, { position := (0.5, -0.25) }],
       [{ position := (-0.5, -0.5) }, { position := (0.0, 0.5) }, { position := (0.5, -0.25) }]] := by
  obtain ⟨-, rfl⟩ := run_tick_ok_elim h
  cases e.is_close_requested <;> exact ⟨rfl, rfl⟩

theorem spec_c1_witness :
    built_vertex_lists (expected_result 0 false).trace =
      [[{ position := (-0.5, -0.5) }, { position := (0.0, 0.5) }, { position := (0.5, -0.25) }]] ∧
    uploaded_vertex_lists (expected_result 0 false).trace =
      [[{ position := (-0.5, -0.5) }, { position := (0.0, 0.5) }, { position := (0.5, -0.25) }],
       [{ position := (-0.5, -0.5) }, { position := (0.0, 0.5) }, { position := (0.5, -0.25) }]] :=
  spec_c1 env₀ evInit ControlFlow.Poll (expected_result 0 false) rfl

/-- Claim C2: every tick that completes issues exactly two draw calls on the
    same triangle: first the command generated with `add_fill = true` and no
    stroke width from color (1.0, 0.0, 0.0, 0.0) (the solid fill), then the
    command generated with `add_fill = false` and `stroke_width = Some(4.0)`
    from color (1.0, 1.0, 0.0, 0.0) (the stroke outline). -/
theorem spec_c2 (env : GlEnv) (e : GlutinEvent) (cf : ControlFlow) (r : TickResult)
    (h : run_tick env e cf = Except.ok r) :
    generate_draw_command true triangle_vertices ShapePrimitive.Triangle
      (Color.new 1.0 0.0 0.0 0.0) true none = Except.ok fill_command ∧
    generate_draw_command true triangle_vertices ShapePrimitive.Triangle
      (Color.new 1.0 1.0 0.0 0.0) false (some 4.0) = Except.ok stroke_command ∧
    draw_commands r.trace = [fill_command, stroke_command] := by
  obtain ⟨-, rfl⟩ := run_tick_ok_elim h
  cases e.is_close_requested <;> exact ⟨rfl, rfl, rfl⟩

theorem spec_c2_witness :
    generate_draw_command true triangle_vertices ShapePrimitive.Triangle
      (Color.new 1.0 0.0 0.0 0.0) true none = Except.ok fill_command ∧
    generate_draw_command true triangle_vertices ShapePrimitive.Triangle
      (Color.new 1.0 1.0 0.0 0.0) false (some 4.0) = Except.ok stroke_command ∧
    draw_commands (expected_result 0 false).trace = [fill_command, stroke_command] :=
  spec_c2 env₀ evInit ControlFlow.Poll (expected_result 0 false) rfl

/-- Claim C3: the tick completes without panicking exactly when every fallible
    GL operation it performs (shader compilation, the two vertex-buffer
    allocations, the two draw calls, frame presentation) succeeds, and it
    panics (dies with a `GlPanic`) exactly when one of them fails: there is no
    recovery, retry, or alternative error path. -/
theorem spec_c3 (env : GlEnv) (e : GlutinEvent) (cf : ControlFlow) :
    ((∃ r, run_tick env e cf = Except.ok r) ↔ gl_all_ok env = true) ∧
    ((∃ p, run_tick env e cf = Except.error p) ↔ gl_all_ok env = false) := by
  constructor
  · constructor
    · rintro ⟨r, hr⟩
      cases hg : gl_all_ok env with
      | false =>
        obtain ⟨p, hp⟩ := run_tick_err env e cf hg
        rw [hp] at hr
        exact absurd hr (by simp)
      | true => rfl
    · intro hg
      exact ⟨expected_result env.now e.is_close_requested, run_tick_ok env e cf hg⟩
  · constructor
    · rintro ⟨p, hp⟩
      cases hg : gl_all_ok env with
      | false => rfl
      | true =>
        have hok := run_tick_ok env e cf hg
        rw [hok] at hp
        exact absurd hp (by simp)
    · intro hg
      exact run_tick_err env e cf hg

/-- Claim C4: after presenting the frame, the tick sets the control flow to
    `WaitUntil` at the clock reading plus exactly 16666667 nanoseconds; when
    the tick's event is a window-close request it additionally overwrites it
    with `Exit`, so the final control flow is `Exit` in that case and the
    ~60 Hz `WaitUntil` otherwise. -/
theorem spec_c4 (env : GlEnv) (e : GlutinEvent) (cf : ControlFlow) (r : TickResult)
    (h : run_tick env e cf = Except.ok r) :
    set_control_flows r.trace =
      (if e.is_close_requested then
        [ControlFlow.WaitUntil (env.now + duration_from_nanos 16666667), ControlFlow.Exit]
      else [ControlFlow.WaitUntil (env.now + duration_from_nanos 16666667)]) ∧
    r.control_flow =
      (if e.is_close_requested then ControlFlow.Exit
       else ControlFlow.WaitUntil (env.now + duration_from_nanos 16666667)) := by
  obtain ⟨-, rfl⟩ := run_tick_ok_elim h
  cases e.is_close_requested <;> exact ⟨rfl, rfl⟩

theorem spec_c4_witness :
    set_control_flows (expected_result 42 true).trace =
      [ControlFlow.WaitUntil (42 + 16666667), ControlFlow.Exit] ∧
    (expected_result 42 true).control_flow = ControlFlow.Exit :=
  spec_c4 env₁ evClose ControlFlow.Wait (expected_result 42 true) rfl

/-- Claim C5: for every event delivered to a tick that completes, the final
    control flow is `Exit` if and only if the event is
    `WindowEvent::CloseRequested`, and `Exit` is ever written to the control
    flow during the tick if and only if the event is that close request; no
    other window event, timer event (`NewEvents`), or initialization event
    makes the loop exit. -/
theorem spec_c5 (env : GlEnv) (e : GlutinEvent) (cf : ControlFlow) (r : TickResult)
    (h : run_tick env e cf = Except.ok r) :
    (r.control_flow = ControlFlow.Exit ↔ e.is_close_requested = true) ∧
    (ControlFlow.Exit ∈ set_control_flows r.trace ↔ e.is_close_requested = true) := by
  obtain ⟨-, rfl⟩ := run_tick_ok_elim h
  cases e.is_close_requested <;>
    simp [expected_result, expected_trace, set_control_flows]

theorem spec_c5_witness :
    ((expected_result 42 true).control_flow = ControlFlow.Exit ↔
      evClose.is_close_requested = true) ∧
    (ControlFlow.Exit ∈ set_control_flows (expected_result 42 true).trace ↔
      evClose.is_close_requested = true) :=
  spec_c5 env₁ evClose ControlFlow.Wait (expected_result 42 true) rfl

/-- Claim C6 as stated is false on the code: the tick does not finish all
    vertex uploads before the draw calls.  `claimed_tick_order` checks the
    claimed phase order (compile, then begin-and-clear, then build/upload
    steps only, then draw steps only, then present, then set control flow);
    on the concrete tick with environment `env₀` (clock 0, every GL operation
    succeeding) and the initialization event, the actual trace interleaves
    them — upload, draw, upload, draw — so the checker returns `false`. -/
theorem spec_c6_counterexample :
    run_tick env₀ evInit ControlFlow.Poll = Except.ok (expected_result 0 false) ∧
    claimed_tick_order (expected_result 0 false).trace = false :=
  ⟨rfl, rfl⟩

/-- Claim C6 (amended): each tick that completes performs its steps in this
    order: compile the shader program from source, then begin the frame and
    clear it, then build the vertex data, then for each of the two draw calls
    in turn upload the vertex data and issue that draw call, then present the
    frame, then set the next-frame wait time (followed by `Exit` when the
    event was a close request) — i.e. the trace is exactly `expected_trace`. -/
theorem spec_c6 (env : GlEnv) (e : GlutinEvent) (cf : ControlFlow) (r : TickResult)
    (h : run_tick env e cf = Except.ok r) :
    r.trace = expected_trace env.now e.is_close_requested := by
  obtain ⟨-, rfl⟩ := run_tick_ok_elim h
  rfl

theorem spec_c6_witness :
    (expected_result 0 false).trace = expected_trace 0 false :=
  spec_c6 env₀ evInit ControlFlow.Poll (expected_result 0 false) rfl

/-- Claim C7: the per-tick computation is deterministic and frame-independent:
    any two completing ticks (any clocks, any events) build and upload
    identical vertex data, and each compiles exactly one shader program, from
    the same two constant source strings with no geometry shader. -/
theorem spec_c7 (env1 env2 : GlEnv) (e1 e2 : GlutinEvent) (cf1 cf2 : ControlFlow)
    (r1 r2 : TickResult)
    (h1 : run_tick env1 e1 cf1 = Except.ok r1)
    (h2 : run_tick env2 e2 cf2 = Except.ok r2) :
    built_vertex_lists r1.trace = built_vertex_lists r2.trace ∧
    uploaded_vertex_lists r1.trace = uploaded_vertex_lists r2.trace ∧
    compiled_programs r1.trace =
      [(VERTEX_SHADER_SRC, FRAGMENT_SHADER_SRC, (none : Option String))] ∧
    compiled_programs r2.trace =
      [(VERTEX_SHADER_SRC, FRAGMENT_SHADER_SRC, (none : Option String))] := by
  obtain ⟨-, rfl⟩ := run_tick_ok_elim h1
  obtain ⟨-, rfl⟩ := run_tick_ok_elim h2
  rw [built_expected, built_expected, uploaded_expected, uploaded_expected,
    compiled_expected, compiled_expected]
  exact ⟨rfl, rfl, rfl, rfl⟩

theorem spec_c7_witness :
    built_vertex_lists (expected_result 0 false).trace =
      built_vertex_lists (expected_result 42 true).trace ∧
    uploaded_vertex_lists (expected_result 0 false).trace =
      uploaded_vertex_lists (expected_result 42 true).trace ∧
    compiled_programs (expected_result 0 false).trace =
      [(VERTEX_SHADER_SRC, FRAGMENT_SHADER_SRC, (none : Option String))] ∧
    compiled_programs (expected_result 42 true).trace =
      [(VERTEX_SHADER_SRC, FRAGMENT_SHADER_SRC, (none : Option String))] :=
  spec_c7 env₀ env₁ evInit evClose ControlFlow.Poll ControlFlow.Wait
    (expected_result 0 false) (expected_result 42 true) rfl rfl

/-- Claim C8: for all f32 channel values, `Color::new(r, g, b, a).as_tuple()`
    returns exactly `(r, g, b, a)`: construction followed by `as_tuple` is the
    identity on the four channels. -/
theorem spec_c8 (r g b a : f32) : (Color.new r g b a).as_tuple = (r, g, b, a) :=
  rfl

/-- Claim C9: whenever `generate_draw_command` returns a command (for every
    input on which its vertex-buffer allocation succeeds), the command's
    polygon mode is `Fill` when `add_fill` is true and `Line` when it is
    false, its line width is the `stroke_width` argument unchanged, its index
    primitive is `TrianglesList` for `Triangle` and `LineLoop` for `Circle`,
    and its uniform is exactly the four-channel tuple of the given color. -/
theorem spec_c9 (vertex_buffer_new_ok : Bool) (vertices : List Vertex)
    (primitive : ShapePrimitive) (color : Color) (add_fill : Bool)
    (stroke_width : Option f32) (cmd : SketchDrawCommand)
    (h : generate_draw_command vertex_buffer_new_ok vertices primitive color add_fill
        stroke_width = Except.ok cmd) :
    cmd.draw_parameters.polygon_mode =
      (if add_fill then PolygonMode.Fill else PolygonMode.Line) ∧
    cmd.draw_parameters.line_width = stroke_width ∧
    cmd.indices.primitive = primitive_type_for primitive ∧
    cmd.uniforms.requested_rgba_color = color.as_tuple := by
  cases vertex_buffer_new_ok with
  | false => simp [generate_draw_command] at h
  | true =>
    cases primitive <;> cases add_fill <;>
      (simp [generate_draw_command] at h
       subst h
       exact ⟨rfl, rfl, rfl, rfl⟩)

theorem spec_c9_witness :
    fill_command.draw_parameters.polygon_mode = PolygonMode.Fill ∧
    fill_command.draw_parameters.line_width = (none : Option f32) ∧
    fill_command.indices.primitive = PrimitiveType.TrianglesList ∧
    fill_command.uniforms.requested_rgba_color = (1.0, 0.0, 0.0, 0.0) :=
  spec_c9 true triangle_vertices ShapePrimitive.Triangle (Color.new 1.0 0.0 0.0 0.0) true none
    fill_command rfl

/-- Claim C10: every tick that completes performs exactly one clear, to opaque
    white (1.0, 1.0, 1.0, 1.0), and that clear comes before any draw call, so
    each frame starts from the same blank state regardless of earlier
    frames. -/
theorem spec_c10 (env : GlEnv) (e : GlutinEvent) (cf : ControlFlow) (r : TickResult)
    (h : run_tick env e cf = Except.ok r) :
    clear_colors r.trace = [((1.0 : f32), (1.0 : f32), (1.0 : f32), (1.0 : f32))] ∧
    clears_white_before_draws r.trace = true := by
  obtain ⟨-, rfl⟩ := run_tick_ok_elim h
  cases e.is_close_requested <;>
    exact ⟨rfl, by simp [expected_result, expected_trace, clears_white_before_draws]⟩

theorem spec_c10_witness :
    clear_colors (expected_result 0 false).trace =
      [((1.0 : f32), (1.0 : f32), (1.0 : f32), (1.0 : f32))] ∧
    clears_white_before_draws (expected_result 0 false).trace = true :=
  spec_c10 env₀ evInit ControlFlow.Poll (expected_result 0 false) rfl

end Glium101
